import Mathlib

/-
Verification development for the workflow-invocation orchestrator in
src/tool_name/util.py (functions scontrol_show, get_hpc, hpc_options,
copy_config, update_config and run_snakemake).  Python strings are modelled
as Lean String values, with line/field splitting and whitespace stripping
carried out on the underlying character lists so that every definition is
executable and kernel-reducible.  Python dictionaries are modelled as
association lists built only through setD, which mirrors dict assignment
(replace in place if the key is present, else append).
-/

/-- Lookup in an association list, mirroring Python dict membership and
indexing for dictionaries built with setD (keys are then unique). -/
def lookupD {α : Type} : List (String × α) → String → Option α
  | [], _ => none
  | (k1, v1) :: rest, k => if k1 = k then some v1 else lookupD rest k

/-- Assignment d[k] = v on a Python dict modelled as an association list:
replace the binding in place when the key is present, else append. -/
def setD {α : Type} : List (String × α) → String → α → List (String × α)
  | [], k, v => [(k, v)]
  | (k1, v1) :: rest, k, v =>
      if k1 = k then (k, v) :: rest else (k1, v1) :: setD rest k v

/-- True when the key k does not occur in the association list. -/
def keyNotIn {α : Type} (k : String) : List (String × α) → Bool
  | [] => true
  | (k1, _) :: rest => (k1 != k) && keyNotIn k rest

/-- Model of Python str.split(sep) for a one-character separator, on the
character list of the string: "a=b".split("=") gives ["a", "b"], and the
empty string gives [""]. -/
def splitOnChar (c : Char) : List Char → List (List Char)
  | [] => [[]]
  | x :: xs =>
      match splitOnChar c xs with
      | h :: t => if x = c then [] :: h :: t else (x :: h) :: t
      | [] => if x = c then [[], []] else [[x]]

/-- Whitespace characters removed by Python str.strip (the ASCII ones that
can occur in scontrol output). -/
def isPySpace (c : Char) : Bool :=
  c = ' ' || c = '\t' || c = '\n' || c = '\r' || c = '\x0b' || c = '\x0c'

/-- Model of Python str.strip: drop leading and trailing whitespace. -/
def pyStrip (cs : List Char) : List Char :=
  ((cs.dropWhile isPySpace).reverse.dropWhile isPySpace).reverse

/-- Model of scontrol_show (util.py lines 89 to 99), parameterised by the
captured stdout of the subprocess "scontrol show config".  Each line is
split on "=", and when the split has at least two parts the first part
(stripped) is mapped to the second part (stripped); every further part,
that is all text from the second "=" onward, is discarded. -/
def scontrol_show (out : String) : List (String × String) :=
  if out.length > 0 then
    (splitOnChar '\n' out.toList).foldl
      (fun d line =>
        match splitOnChar '=' line with
        | k :: v :: _ => setD d (String.mk (pyStrip k)) (String.mk (pyStrip v))
        | _ => d)
      []
  else []

/-- Model of get_hpc (util.py lines 102 to 108): the value stored under
"ClusterName" when present, else none. -/
def get_hpc (out : String) : Option String :=
  lookupD (scontrol_show out) "ClusterName"

/-- Static environment registry hpc_options (util.py lines 111 to 117):
cluster name mapped to (profile name, slurm header template path). -/
def hpc_options : List (String × String × String) :=
  [("biowulf", ("biowulf", "assets/slurm_header_biowulf.sh")),
   ("fnlcr", ("frce", "assets/slurm_header_frce.sh"))]

example : scontrol_show "ClusterName = biowulf" = [("ClusterName", "biowulf")] := by
  decide

example : get_hpc "" = none := by decide

example : get_hpc "ClusterName = mycluster" = some "mycluster" := by decide

/-- Observable side effects of the orchestrator: a subprocess invocation
with its serialized command line, a file copy, a directory tree copy, or a
file write with its content. -/
inductive Event where
  | proc : String → Event
  | fcopy : String → String → Event
  | fcopytree : String → String → Event
  | fwrite : String → String → Event
deriving DecidableEq, Repr

/-- Python exceptions that the modelled code can raise. -/
inductive PyErr where
  | valueError : String → PyErr
  | nameError : String → PyErr
  | fileNotFound : String → PyErr
  | typeError : PyErr
deriving DecidableEq, Repr

deriving instance DecidableEq for Except

/-- Ambient environment of one invocation: the stdout that the subprocess
"scontrol show config" would produce (empty when no resource manager is
available, which is not an error). -/
structure Env where
  scontrol_out : String

/-- Filesystem view used by copy_config: which paths are regular files and
which are directories. -/
structure FS where
  isFile : List String
  isDir : List String

/-- Model of snake_base (util.py lines 13 to 15): resolve a path relative
to the install base directory, taken here as a parameter. -/
def snake_base (basedir rel : String) : String :=
  basedir ++ "/" ++ rel

/-- Model of copy_config (util.py lines 46 to 55).  For each requested
local path, the corresponding system path is copied when it is a file
(shutil.copyfile, which overwrites any existing destination
unconditionally), copied as a tree when it is a directory, and otherwise a
FileNotFoundError is raised.  Note that the destination is never checked
for existence.  The call site in run_snakemake (lines 171 to 175)
additionally passes a single string instead of a list and keyword
arguments system_config and log that this signature does not accept. -/
def copy_config (fs : FS) (basedir : String) :
    List String → List Event × Except PyErr Unit
  | [] => ([], .ok ())
  | local_config :: rest =>
      let system_config := snake_base basedir local_config
      if system_config ∈ fs.isFile then
        let r := copy_config fs basedir rest
        (Event.fcopy system_config local_config :: r.1, r.2)
      else if system_config ∈ fs.isDir then
        let r := copy_config fs basedir rest
        (Event.fcopytree system_config local_config :: r.1, r.2)
      else
        ([], .error (.fileNotFound
          ("Cannot copy " ++ system_config ++ " to " ++ local_config)))

/-- Python truthiness of an optional string: None and the empty string are
falsy. -/
def truthyOpt : Option String → Bool
  | none => false
  | some s => s != ""

/-- Tokens appended by util.py lines 153 to 154: ["--cores", threads]
when "--profile" is not among snake_args and profile is None, else
nothing. -/
def coresFlag (threads : Nat) (snake_args : List String)
    (profile : Option String) : List String :=
  if "--profile" ∉ snake_args ∧ profile = none then
    ["--cores", toString threads]
  else []

/-- Tokens appended by util.py lines 165 to 166: ["--profile", p] when
profile is truthy (not None and not empty), else nothing. -/
def profileFlag : Option String → List String
  | some p => if p = "" then [] else ["--profile", p]
  | none => []

/-- Tokens appended by util.py line 177: ["--workflow-profile", w] when
workflow_profile is truthy, else nothing. -/
def workflowProfileFlag : Option String → List String
  | some w => if w = "" then [] else ["--workflow-profile", w]
  | none => []

/-- Token building of run_snakemake (util.py lines 147 and 152 to 177),
as a pure function: start from ["snakemake", "-s", path]; append the
cores flag, then snake_default, then snake_args, then the profile flag,
then the workflow-profile flag (in the source this last append is
preceded by the failing copy_config call, see run_snakemake below). -/
def assemble (snakefile_path : String) (threads : Nat)
    (snake_default snake_args : List String)
    (profile workflow_profile : Option String) : List String :=
  ["snakemake", "-s", snakefile_path]
    ++ coresFlag threads snake_args profile
    ++ snake_default
    ++ snake_args
    ++ profileFlag profile
    ++ workflowProfileFlag workflow_profile

/-- Model of run_snakemake (util.py lines 120 to 197), returning the list
of observable events and the outcome.  Control flow of the source:
line 147 starts the command vector and line 148 calls get_hpc, which runs
the subprocess "scontrol show config"; line 149 raises ValueError when
mode is "slurm" and no HPC was detected (None or empty cluster name);
lines 152 to 166 extend the command vector (pure, see assemble).  When
workflow_profile is truthy, lines 171 to 175 call
copy_config(..., system_config=..., log=log): evaluating the keyword
argument log raises NameError, because no global named log exists in the
module, so copy_config is never entered and nothing is copied.  Otherwise
line 181 calls msg_box(..., log=log) and raises the same NameError.
Lines 182 to 197 (writing submit_slurm.sh, invoking sbatch, running the
local command) are therefore unreachable for every input: no file is ever
written and no second subprocess is ever started. -/
def run_snakemake (env : Env) (snakefile_path : String) (mode : String)
    (threads : Nat) (snake_default snake_args : List String)
    (profile workflow_profile _system_workflow_profile : Option String) :
    List Event × Except PyErr Unit :=
  let _cmd := assemble snakefile_path threads snake_default snake_args
    profile workflow_profile
  let events := [Event.proc "scontrol show config"]
  let hpc := get_hpc env.scontrol_out
  if mode = "slurm" ∧ truthyOpt hpc = false then
    (events, .error (.valueError
      "mode is slurm but no HPC environment was detected"))
  else if truthyOpt workflow_profile then
    (events, .error (.nameError "log"))
  else
    (events, .error (.nameError "log"))

example :
    run_snakemake ⟨""⟩ "workflow/Snakefile" "local" 2 [] [] none none none
      = ([Event.proc "scontrol show config"], .error (.nameError "log")) := by
  decide

example :
    run_snakemake ⟨""⟩ "workflow/Snakefile" "slurm" 2 [] [] none none none
      = ([Event.proc "scontrol show config"],
         .error (.valueError
           "mode is slurm but no HPC environment was detected")) := by
  decide

example :
    assemble "workflow/Snakefile" 2 [] [] none none
      = ["snakemake", "-s", "workflow/Snakefile", "--cores", "2"] := by
  decide

/-- YAML-like configuration value: a non-mapping value (abstracted as a
string scalar, since update_config only ever tests whether a value is a
Mapping) or a nested mapping. -/
inductive Val where
  | s : String → Val
  | map : List (String × Val) → Val

/-- Model of the inner function named with a leading underscore inside
update_config (util.py lines 65 to 71).  For each key of the override u:
when the override value is a Mapping, the code evaluates d.get(key, an
empty dict) and recurses into it before assigning d[key]; when the
override value is not a Mapping it assigns d[key] = value directly.  When
d itself is not a Mapping and u is non-empty, the first iteration raises
(d.get on a non-mapping raises AttributeError, and item assignment on a
non-mapping raises TypeError; both are modelled as typeError), while an
empty u returns d unchanged because the loop body never runs. -/
def _update : Val → List (String × Val) → Except PyErr Val
  | d, [] => .ok d
  | .map dm, (k, .map vm) :: rest => do
      let inner ← _update ((lookupD dm k).getD (.map [])) vm
      _update (.map (setD dm k inner)) rest
  | .map dm, (k, .s a) :: rest => _update (.map (setD dm k (.s a))) rest
  | .s _, _ :: _ => .error .typeError
termination_by _ u => sizeOf u

/-- Model of update_config (util.py lines 64 to 73): merge the override
mapping into the base mapping, returning the merged mapping (the source
mutates config in place). -/
def update_config (config overwrite_config : List (String × Val)) :
    Except PyErr Val :=
  _update (.map config) overwrite_config

mutual

/-- Well-formed override list: keys are distinct at every nesting level,
as they are for any value read from a Python dict or a YAML mapping. -/
def wfU : List (String × Val) → Bool
  | [] => true
  | (k, v) :: rest => keyNotIn k rest && wfV v && wfU rest
termination_by u => sizeOf u

/-- Well-formed value: every nested mapping has distinct keys. -/
def wfV : Val → Bool
  | .s _ => true
  | .map m => wfU m
termination_by v => sizeOf v

end

example :
    _update (.map [("a", .s "1")]) [("a", .s "2")]
      = .ok (.map [("a", .s "2")]) := by
  simp [_update, setD]

example :
    _update (.map [("k", .s "x")]) [("k", .map [("a", .s "y")])]
      = .error .typeError := by
  simp [_update, lookupD]
  rfl

example : wfU [("a", Val.s "2"), ("b", Val.map [("c", Val.s "3")])] = true := by
  simp [wfU, wfV, keyNotIn]

theorem exceptOkBind {ε α β : Type} (a : α) (f : α → Except ε β) :
    (Except.ok a : Except ε α) >>= f = f a := rfl

theorem exceptErrBind {ε α β : Type} (e : ε) (f : α → Except ε β) :
    (Except.error e : Except ε α) >>= f = Except.error e := rfl

theorem lookupD_setD_self {α : Type} (d : List (String × α)) (k : String)
    (v : α) : lookupD (setD d k v) k = some v := by
  induction d with
  | nil => simp [setD, lookupD]
  | cons p rest ih =>
      obtain ⟨k1, v1⟩ := p
      by_cases h : k1 = k
      · simp [setD, lookupD, h]
      · simp [setD, lookupD, h, ih]

theorem lookupD_setD_ne {α : Type} (d : List (String × α)) (k1 k : String)
    (v : α) (h : k1 ≠ k) : lookupD (setD d k1 v) k = lookupD d k := by
  induction d with
  | nil => simp [setD, lookupD, h]
  | cons p rest ih =>
      obtain ⟨k2, v2⟩ := p
      by_cases h2 : k2 = k1
      · simp [setD, lookupD, h2, h]
      · simp [setD, lookupD, h2, ih]

theorem setD_lookupD_eq {α : Type} (d : List (String × α)) (k : String)
    (v : α) (h : lookupD d k = some v) : setD d k v = d := by
  induction d with
  | nil => simp [lookupD] at h
  | cons p rest ih =>
      obtain ⟨k1, v1⟩ := p
      by_cases h1 : k1 = k
      · simp [lookupD, h1] at h
        simp [setD, h1, h]
      · simp [lookupD, h1] at h
        simp [setD, h1, ih h]

theorem update_ok_map (u : List (String × Val)) :
    ∀ (dm : List (String × Val)) (r : Val),
      _update (.map dm) u = .ok r → ∃ rm, r = Val.map rm := by
  induction u with
  | nil =>
      intro dm r h
      simp [_update] at h
      exact ⟨dm, h.symm⟩
  | cons p rest ih =>
      obtain ⟨k, v⟩ := p
      intro dm r h
      cases v with
      | s a =>
          simp only [_update] at h
          exact ih _ _ h
      | map vm =>
          simp only [_update] at h
          cases hb : _update ((lookupD dm k).getD (.map [])) vm with
          | error e => rw [hb, exceptErrBind] at h; exact absurd h (by simp)
          | ok inner =>
              rw [hb, exceptOkBind] at h
              exact ih _ _ h

theorem update_preserve (u : List (String × Val)) :
    ∀ (x y : List (String × Val)) (k : String), keyNotIn k u = true →
      _update (.map x) u = .ok (.map y) → lookupD y k = lookupD x k := by
  induction u with
  | nil =>
      intro x y k _ h
      simp [_update] at h
      rw [h]
  | cons p rest ih =>
      obtain ⟨k1, v⟩ := p
      intro x y k hk h
      simp only [keyNotIn, Bool.and_eq_true, bne_iff_ne, ne_eq] at hk
      obtain ⟨hne, hkrest⟩ := hk
      cases v with
      | s a =>
          simp only [_update] at h
          rw [ih _ _ _ hkrest h, lookupD_setD_ne _ _ _ _ hne]
      | map vm =>
          simp only [_update] at h
          cases hb : _update ((lookupD x k1).getD (.map [])) vm with
          | error e => rw [hb, exceptErrBind] at h; exact absurd h (by simp)
          | ok inner =>
              rw [hb, exceptOkBind] at h
              rw [ih _ _ _ hkrest h, lookupD_setD_ne _ _ _ _ hne]

theorem update_idem_aux (n : Nat) :
    ∀ (u : List (String × Val)), sizeOf u ≤ n →
      ∀ (d r : Val), wfU u = true → _update d u = .ok r →
        _update r u = .ok r := by
  induction n with
  | zero =>
      intro u hn
      exfalso
      cases u <;> simp at hn
  | succ n ih =>
      intro u hn d r hwf hok
      cases u with
      | nil => simp [_update] at hok ⊢
      | cons p rest =>
          obtain ⟨k, v⟩ := p
          simp only [wfU, Bool.and_eq_true] at hwf
          obtain ⟨⟨hkn, hwfv⟩, hwfrest⟩ := hwf
          cases d with
          | s a => simp [_update] at hok
          | map dm =>
              have hszrest : sizeOf rest ≤ n := by
                simp only [List.cons.sizeOf_spec, Prod.mk.sizeOf_spec] at hn
                omega
              cases v with
              | s a =>
                  simp only [_update] at hok
                  obtain ⟨rm, hrm⟩ := update_ok_map rest _ _ hok
                  subst hrm
                  have hlk : lookupD rm k = some (Val.s a) := by
                    rw [update_preserve rest _ _ _ hkn hok, lookupD_setD_self]
                  simp only [_update]
                  rw [setD_lookupD_eq _ _ _ hlk]
                  exact ih rest hszrest _ _ hwfrest hok
              | map vm =>
                  have hszvm : sizeOf vm ≤ n := by
                    simp only [List.cons.sizeOf_spec, Prod.mk.sizeOf_spec,
                      Val.map.sizeOf_spec] at hn
                    omega
                  simp only [_update] at hok
                  cases hb : _update ((lookupD dm k).getD (.map [])) vm with
                  | error e => rw [hb, exceptErrBind] at hok; exact absurd hok (by simp)
                  | ok inner =>
                      rw [hb, exceptOkBind] at hok
                      obtain ⟨rm, hrm⟩ := update_ok_map rest _ _ hok
                      subst hrm
                      have hlk : lookupD rm k = some inner := by
                        rw [update_preserve rest _ _ _ hkn hok, lookupD_setD_self]
                      have hwfvm : wfU vm = true := by
                        simpa [wfV] using hwfv
                      have hself : _update inner vm = .ok inner :=
                        ih vm hszvm _ _ hwfvm hb
                      simp only [_update]
                      rw [hlk]
                      simp only [Option.getD]
                      rw [hself, exceptOkBind, setD_lookupD_eq _ _ _ hlk]
                      exact ih rest hszrest _ _ hwfrest hok

/-- C1: evaluation of the dispatcher at the end-to-end scenario of the
claim (workflow path "workflow/Snakefile", mode "local", threads 2, no
default args, no user args, no profile, no HPC detected).  Contrary to
the claim, the subprocess for the serialized command vector is never run
and Done is never reached: after the environment-detection subprocess,
the msg_box call at util.py line 181 evaluates the undefined global name
log and raises NameError (and even without that slip, the no-HPC local
branch at lines 190 to 193 would read the unbound local
snakemake_command).  The token building of lines 147 to 154 does produce
exactly snakemake -s workflow/Snakefile --cores 2, as the second
conjunct records. -/
theorem c1_local_no_hpc_never_dispatches :
    run_snakemake ⟨""⟩ "workflow/Snakefile" "local" 2 [] [] none none none
      = ([Event.proc "scontrol show config"], .error (.nameError "log"))
    ∧ assemble "workflow/Snakefile" 2 [] [] none none
      = ["snakemake", "-s", "workflow/Snakefile", "--cores", "2"] := by
  decide

/-- C2: when a workflow-profile directory is requested, no profile config
is ever materialized: the copy_config call at util.py lines 171 to 175
raises NameError while evaluating its undefined keyword argument log (and
also passes keyword arguments system_config and log that copy_config does
not accept), so the run produces no copy event at all (first conjunct).
Moreover copy_config itself never checks whether the destination exists:
with the destination wfprofile/config.yaml present in the filesystem, the
copy event still happens, overwriting it (second conjunct).  Both
directions of the claimed materialize-iff-absent contract fail. -/
theorem c2_profile_config_not_materialized :
    run_snakemake ⟨""⟩ "wf/Snakefile" "local" 1 [] [] none
        (some "wfprofile") (some "sys/config.yaml")
      = ([Event.proc "scontrol show config"], .error (.nameError "log"))
    ∧ copy_config ⟨["BASE/wfprofile/config.yaml", "wfprofile/config.yaml"], []⟩
        "BASE" ["wfprofile/config.yaml"]
      = ([Event.fcopy "BASE/wfprofile/config.yaml" "wfprofile/config.yaml"],
         .ok ()) := by
  decide

/-- C3 counterexample: dispatch with mode "bogus".  The claim says the
run fails with an unrecognized-mode error before any subprocess
interaction; the model shows that the environment-detection subprocess
has already run (the event list is non-empty) and that the failure is the
NameError on log, not the unrecognized-mode ValueError of util.py line
195, which is unreachable. -/
theorem c3_counterexample :
    run_snakemake ⟨""⟩ "wf" "bogus" 1 [] [] none none none
      = ([Event.proc "scontrol show config"], .error (.nameError "log")) := by
  decide

/-- C3 amended: for every mode outside {"local", "slurm"}, dispatch fails
after exactly one subprocess (the environment-detection query) and
before any filesystem write or engine or scheduler subprocess, but the
failure is the NameError on the undefined global log, raised upstream of
the unrecognized-mode check of util.py lines 194 to 195, which is dead
code. -/
theorem c3_unrecognized_mode_fails_after_detection (env : Env)
    (sp : String) (t : Nat) (sd sa : List String)
    (prof wp swp : Option String) (mode : String)
    (_h1 : mode ≠ "local") (h2 : mode ≠ "slurm") :
    run_snakemake env sp mode t sd sa prof wp swp
      = ([Event.proc "scontrol show config"], .error (.nameError "log")) := by
  simp [run_snakemake, h2]

/-- C3 witness: the amended theorem applied at the concrete mode
"dryrun". -/
theorem c3_witness :
    run_snakemake ⟨"ClusterName = foo"⟩ "wf" "dryrun" 3 ["-n"] [] none
        (some "wp") none
      = ([Event.proc "scontrol show config"], .error (.nameError "log")) :=
  c3_unrecognized_mode_fails_after_detection ⟨"ClusterName = foo"⟩ "wf" 3
    ["-n"] [] none (some "wp") none "dryrun" (by decide) (by decide)

/-- C4 counterexample: mode "slurm" with detected cluster "mycluster",
which is not in the registry (second conjunct).  The claim says dispatch
fails with an unsupported-environment error; the model shows it fails
with the NameError on log instead, before the registry is ever consulted
(zero scheduler submissions do occur, as the event list records). -/
theorem c4_counterexample :
    run_snakemake ⟨"ClusterName = mycluster"⟩ "wf" "slurm" 1 [] [] none
        none none
      = ([Event.proc "scontrol show config"], .error (.nameError "log"))
    ∧ lookupD hpc_options "mycluster" = none := by
  decide

/-- C4 amended: with mode "slurm", when no cluster is detected dispatch
fails with the unsupported-environment ValueError of util.py lines 149
to 150 and performs zero scheduler submissions; when a cluster is
detected but absent from the registry, dispatch still performs zero
scheduler submissions but fails with the NameError on the undefined
global log, not with an unsupported-environment error (the registry
lookup at line 185 is unreachable).  In both cases the only subprocess
event is the environment-detection query. -/
theorem c4_slurm_unsupported_no_submission (env : Env) (sp : String)
    (t : Nat) (sd sa : List String) (prof wp swp : Option String) :
    (truthyOpt (get_hpc env.scontrol_out) = false →
      run_snakemake env sp "slurm" t sd sa prof wp swp
        = ([Event.proc "scontrol show config"],
           .error (.valueError
             "mode is slurm but no HPC environment was detected")))
    ∧ (∀ name, get_hpc env.scontrol_out = some name → name ≠ "" →
        lookupD hpc_options name = none →
        run_snakemake env sp "slurm" t sd sa prof wp swp
          = ([Event.proc "scontrol show config"],
             .error (.nameError "log"))) := by
  constructor
  · intro h
    simp [run_snakemake, h]
  · intro name hname hne _
    have ht : truthyOpt (get_hpc env.scontrol_out) = true := by
      rw [hname]; simp [truthyOpt, hne]
    simp [run_snakemake, ht]

/-- C4 witness: the amended theorem applied with detected cluster
"othercluster", which is not registered. -/
theorem c4_witness :
    run_snakemake ⟨"ClusterName = othercluster"⟩ "wf" "slurm" 2 [] []
        none none none
      = ([Event.proc "scontrol show config"], .error (.nameError "log")) :=
  (c4_slurm_unsupported_no_submission ⟨"ClusterName = othercluster"⟩ "wf" 2
      [] [] none none none).2
    "othercluster" (by decide) (by decide) (by decide)

/-- C5 counterexample: merging an override whose value at key "k" is a
mapping into a base whose value at "k" is a non-mapping does not replace
the base value; it raises (in the source, d.get on the scalar raises
AttributeError and the item assignment inside the recursive call would
raise TypeError), contradicting the claim that any two mapping inputs
merge with no error. -/
theorem c5_counterexample :
    update_config [("k", Val.s "x")] [("k", Val.map [("a", Val.s "y")])]
      = .error .typeError := by
  simp [update_config, _update, lookupD]
  rfl

/-- C5 amended: the override value replaces the base value unconditionally
when the override value is a non-mapping (first conjunct, which includes
replacing a mapping with a non-mapping); but when the override value is a
non-empty mapping and the base value at that key is a non-mapping, the
merge raises a type error instead of replacing (second conjunct). -/
theorem c5_override_replacement :
    (∀ (dm : List (String × Val)) (k a : String),
        update_config dm [(k, Val.s a)] = .ok (.map (setD dm k (Val.s a))))
    ∧ (∀ (dm : List (String × Val)) (k a : String) (q : String × Val)
        (vm : List (String × Val)),
        lookupD dm k = some (Val.s a) →
        update_config dm [(k, Val.map (q :: vm))] = .error .typeError) := by
  constructor
  · intro dm k a
    simp [update_config, _update]
  · intro dm k a q vm h
    obtain ⟨qk, qv⟩ := q
    simp only [update_config, _update, h, Option.getD]
    cases qv <;> rfl

/-- C5 witness: both conjuncts of the amended theorem applied at concrete
inputs, with the lookup hypothesis discharged by evaluation. -/
theorem c5_witness :
    update_config [("x", Val.s "1")] [("y", Val.s "2")]
      = .ok (.map [("x", Val.s "1"), ("y", Val.s "2")])
    ∧ update_config [("x", Val.s "1")] [("x", Val.map [("z", Val.s "3")])]
      = .error .typeError :=
  ⟨c5_override_replacement.1 [("x", Val.s "1")] "y" "2",
   c5_override_replacement.2 [("x", Val.s "1")] "x" "1" ("z", Val.s "3") []
     (by simp [lookupD])⟩

/-- C6: merging twice with the same override yields the same result as
merging once: whenever update_config base u succeeds with result r,
running the merge again over r with the same override u returns r
unchanged.  The override is required to have distinct keys at every
nesting level, which holds for every override read from a Python dict or
YAML mapping. -/
theorem c6_merge_idempotent (base : List (String × Val))
    (u : List (String × Val)) (r : Val)
    (hu : wfU u = true) (h : update_config base u = .ok r) :
    _update r u = .ok r :=
  update_idem_aux (sizeOf u) u (Nat.le_refl _) (.map base) r hu h

/-- C6 witness: the idempotence theorem applied to a base with a scalar
override and a nested mapping override. -/
theorem c6_witness :
    _update (.map [("a", Val.s "2"), ("b", Val.map [("c", Val.s "3")])])
        [("a", Val.s "2"), ("b", Val.map [("c", Val.s "3")])]
      = .ok (.map [("a", Val.s "2"), ("b", Val.map [("c", Val.s "3")])]) :=
  c6_merge_idempotent [("a", Val.s "1")]
    [("a", Val.s "2"), ("b", Val.map [("c", Val.s "3")])]
    (.map [("a", Val.s "2"), ("b", Val.map [("c", Val.s "3")])])
    (by simp [wfU, wfV, keyNotIn])
    (by simp [update_config, _update, lookupD, setD]; rfl)

theorem cores_mem_coresFlag (t : Nat) (sa : List String)
    (prof : Option String) :
    ("--cores" ∈ coresFlag t sa prof) ↔ ("--profile" ∉ sa ∧ prof = none) := by
  unfold coresFlag
  by_cases h : "--profile" ∉ sa ∧ prof = none
  · simp [h]
  · simp only [if_neg h, List.not_mem_nil, false_iff]
    exact h

theorem cores_not_mem_profileFlag (prof : Option String)
    (h : prof ≠ some "--cores") : "--cores" ∉ profileFlag prof := by
  rcases prof with _ | p
  · simp [profileFlag]
  · by_cases hp : p = ""
    · simp [profileFlag, hp]
    · have hpc : p ≠ "--cores" := fun he => h (by rw [he])
      simp only [profileFlag, if_neg hp, List.mem_cons, List.not_mem_nil,
        or_false]
      rintro (hc | hc)
      · exact absurd hc (by decide)
      · exact hpc hc.symm

theorem cores_not_mem_workflowProfileFlag (wp : Option String)
    (h : wp ≠ some "--cores") : "--cores" ∉ workflowProfileFlag wp := by
  rcases wp with _ | w
  · simp [workflowProfileFlag]
  · by_cases hw : w = ""
    · simp [workflowProfileFlag, hw]
    · have hwc : w ≠ "--cores" := fun he => h (by rw [he])
      simp only [workflowProfileFlag, if_neg hw, List.mem_cons,
        List.not_mem_nil, or_false]
      rintro (hc | hc)
      · exact absurd hc (by decide)
      · exact hwc hc.symm

/-- C7 counterexample: with an explicit profile name "p" and user args
["--cores", "4"], the assembled vector does contain "--cores" (the user
args are passed through verbatim), contradicting the claim that with an
explicit profile the output never contains "--cores". -/
theorem c7_counterexample :
    "--cores" ∈ assemble "Snakefile" 4 [] ["--cores", "4"] (some "p")
      none := by
  decide

/-- C7 amended: the assembler itself appends the pair
["--cores", threads] iff "--profile" is not among the user args and no
explicit profile is set; provided no other input token equals "--cores"
(the user args are passed through verbatim and may reintroduce it), the
output contains "--cores" exactly under that condition, so with an
explicit profile and no user-supplied "--cores" token the output never
contains "--cores". -/
theorem c7_cores_iff (sp : String) (t : Nat) (sd sa : List String)
    (prof wp : Option String)
    (h1 : "--cores" ∉ sd) (h2 : "--cores" ∉ sa) (h3 : sp ≠ "--cores")
    (h4 : prof ≠ some "--cores") (h5 : wp ≠ some "--cores") :
    ("--cores" ∈ assemble sp t sd sa prof wp)
      ↔ ("--profile" ∉ sa ∧ prof = none) := by
  simp [assemble, List.mem_append, h1, h2, Ne.symm h3,
    cores_not_mem_profileFlag prof h4,
    cores_not_mem_workflowProfileFlag wp h5,
    cores_mem_coresFlag]

/-- C7 witness: the amended theorem applied with threads 4, no profile
and no user args; the assembled vector then contains the cores pair. -/
theorem c7_witness :
    ("--cores" ∈ assemble "wf" 4 [] [] none none)
      ↔ ("--profile" ∉ ([] : List String) ∧ (none : Option String) = none) :=
  c7_cores_iff "wf" 4 [] [] none none (by decide) (by decide) (by decide)
    (by decide) (by decide)

/-- C8: token order invariant of the assembled vector.  The executable
token is followed immediately by "-s" and the workflow file path; when a
truthy workflow-profile path is present, "--workflow-profile" and that
path are the last two tokens; and the whole vector decomposes in order
as executable, workflow-file flags, thread flag block, default args,
user args, explicit profile flag, workflow-profile flag. -/
theorem c8_token_order (sp : String) (t : Nat) (sd sa : List String)
    (prof wp : Option String) :
    (∃ rest, assemble sp t sd sa prof wp
        = "snakemake" :: "-s" :: sp :: rest)
    ∧ (∀ w, wp = some w → w ≠ "" →
        ∃ pre, assemble sp t sd sa prof wp
          = pre ++ ["--workflow-profile", w])
    ∧ (∃ tp pp wpp,
        assemble sp t sd sa prof wp
          = ["snakemake", "-s", sp] ++ tp ++ sd ++ sa ++ pp ++ wpp
        ∧ (tp = ["--cores", toString t] ∨ tp = [])
        ∧ (pp = [] ∨ ∃ p, prof = some p ∧ pp = ["--profile", p])
        ∧ (wpp = [] ∨ ∃ w, wp = some w ∧ wpp = ["--workflow-profile", w])) := by
  refine ⟨⟨_, rfl⟩, ?_, ?_⟩
  · intro w hw hne
    subst hw
    refine ⟨["snakemake", "-s", sp] ++ coresFlag t sa prof ++ sd ++ sa
      ++ profileFlag prof, ?_⟩
    simp [assemble, workflowProfileFlag, hne, List.append_assoc]
  · refine ⟨coresFlag t sa prof, profileFlag prof,
      workflowProfileFlag wp, rfl, ?_, ?_, ?_⟩
    · unfold coresFlag
      by_cases h : "--profile" ∉ sa ∧ prof = none
      · simp [h]
      · simp [h]
    · rcases prof with _ | p
      · exact Or.inl rfl
      · by_cases hp : p = ""
        · simp [profileFlag, hp]
        · exact Or.inr ⟨p, rfl, by simp [profileFlag, hp]⟩
    · rcases wp with _ | w
      · exact Or.inl rfl
      · by_cases hw : w = ""
        · simp [workflowProfileFlag, hw]
        · exact Or.inr ⟨w, rfl, by simp [workflowProfileFlag, hw]⟩

/-- C8 witness: the token order theorem applied at a concrete invocation
with a workflow-profile path, whose flag is then the final token pair. -/
theorem c8_witness :
    ∃ pre, assemble "wf" 2 [] [] none (some "wp")
      = pre ++ ["--workflow-profile", "wp"] :=
  (c8_token_order "wf" 2 [] [] none (some "wp")).2.1 "wp" rfl (by decide)

/-- C9: evaluation of the dispatcher with mode "slurm" on the detected
registered cluster "biowulf" (second conjunct shows the registry entry).
Contrary to the claim, no submission script is ever written and the
scheduler submit command is never invoked: the NameError on the undefined
global log at util.py line 181 is raised first, so the event list holds
only the environment-detection query and no file write and no sbatch
subprocess. -/
theorem c9_slurm_registered_never_submits :
    run_snakemake ⟨"ClusterName = biowulf"⟩ "wf/Snakefile" "slurm" 4 [] []
        none none none
      = ([Event.proc "scontrol show config"], .error (.nameError "log"))
    ∧ lookupD hpc_options "biowulf"
      = some ("biowulf", "assets/slurm_header_biowulf.sh") := by
  decide

/-- C10: for every single line of scontrol output that splits on "=" into
at least three parts (two or more separators), the facts mapping stores
under the stripped first part exactly the stripped second part, the text
between the first and the second "="; everything from the second "="
onward is silently discarded (first conjunct).  For the concrete line
"SuspendTime = NONE=extra", whose true value after the first "=" strips
to "NONE=extra", the stored value "NONE" is a strict prefix of the true
value (second conjunct). -/
theorem c10_scontrol_value_truncation :
    (∀ (line : String) (k v r : List Char) (rest : List (List Char)),
        splitOnChar '\n' line.toList = [line.toList] →
        splitOnChar '=' line.toList = k :: v :: r :: rest →
        scontrol_show line = [(String.mk (pyStrip k), String.mk (pyStrip v))])
    ∧ (scontrol_show "SuspendTime = NONE=extra" = [("SuspendTime", "NONE")]
        ∧ String.mk (pyStrip (" NONE=extra".toList)) = "NONE" ++ "=extra"
        ∧ ("NONE" : String) ++ "=extra" ≠ "NONE") := by
  constructor
  · intro line k v r rest h1 h2
    have hdata : line.toList ≠ [] := by
      intro he
      rw [he] at h2
      simp [splitOnChar] at h2
    have hlen : line.length > 0 := by
      have h0 : line.toList.length ≠ 0 :=
        fun hl => hdata (List.length_eq_zero.mp hl)
      have he : line.length = line.toList.length := rfl
      omega
    unfold scontrol_show
    rw [if_pos hlen, h1]
    simp [setD]
    rw [show splitOnChar '=' line.data = k :: v :: r :: rest from h2]
  · exact ⟨by decide, by decide, by decide⟩

/-- C10 witness: the truncation theorem applied to the concrete line
"A = B=C", whose stored value is the stripped text between the first and
second "=". -/
theorem c10_witness :
    scontrol_show "A = B=C"
      = [(String.mk (pyStrip ("A ".toList)), String.mk (pyStrip (" B".toList)))] :=
  c10_scontrol_value_truncation.1 "A = B=C" ("A ".toList) (" B".toList)
    ("C".toList) [] (by decide) (by decide)
